import Mathlib

/-!
# Verification of the mahjong_alex request-admission pipeline

Shallow embedding of the content-moderation and request-admission code of
the `mahjong_alex` repository:

* `content_filter.py` — `ContentFilter` with IP reputation tracking,
  blacklisting, and the two-stage (safety, relevance) moderation pipeline;
* `security.py` — `RateLimiter` and the malicious-pattern gate
  `is_malicious_request`;
* `image_quality.py` — `ImageQualityChecker.assess_quality`;
* `main.py` — the content-filter block of the `/api/chat` handler.

External effects (the Groq classifier calls, wall-clock time, image
decoding and the OpenCV measurements) are passed in as explicit inputs;
timestamps are integers (seconds) for the reputation store and rationals
for the rate limiter (`time.time()` values).
-/

/-! ## Association lists (model of Python dict / defaultdict) -/

/-- Look up a key in an association list (Python `dict.get`). -/
def getAssoc {α : Type} : List (String × α) → String → Option α
  | [], _ => none
  | (k, v) :: rest, key => if k = key then some v else getAssoc rest key

/-- Update (or insert) a key in an association list (Python `dict[k] = v`). -/
def setAssoc {α : Type} : List (String × α) → String → α → List (String × α)
  | [], key, v => [(key, v)]
  | (k, w) :: rest, key, v =>
      if k = key then (k, v) :: rest else (k, w) :: setAssoc rest key v

theorem getAssoc_setAssoc_self {α : Type} (l : List (String × α)) (k : String) (v : α) :
    getAssoc (setAssoc l k v) k = some v := by
  induction l with
  | nil => simp [getAssoc, setAssoc]
  | cons hd tl ih =>
      obtain ⟨k', v'⟩ := hd
      by_cases h : k' = k <;> simp [getAssoc, setAssoc, h, ih]

theorem getAssoc_setAssoc_other {α : Type} (l : List (String × α)) (k k' : String) (v : α)
    (h : k ≠ k') : getAssoc (setAssoc l k v) k' = getAssoc l k' := by
  induction l with
  | nil => simp [getAssoc, setAssoc, h]
  | cons hd tl ih =>
      obtain ⟨k₀, v₀⟩ := hd
      by_cases h₀ : k₀ = k
      · subst h₀
        simp [getAssoc, setAssoc, h]
      · simp only [setAssoc, if_neg h₀, getAssoc]
        by_cases h₁ : k₀ = k' <;> simp [h₁, ih]

/-! ## Data model of `content_filter.py` -/

/-- `FilterResult` dataclass (content_filter.py). Confidences are modelled
as rationals (`0.9`, `0.5`, `0.0`, `1.0` in the source). -/
structure FilterResult where
  allowed : Bool
  reason : String
  confidence : ℚ
  filter_stage : String
  tokens_used : Nat := 0
deriving Repr, DecidableEq

/-- `IPReputation` dataclass (content_filter.py). Timestamps are integer
seconds (`datetime.now()` in the source). -/
structure IPReputation where
  bad_requests : Nat := 0
  total_requests : Nat := 0
  first_seen : Option Int := none
  last_violation : Option Int := none
  blacklisted : Bool := false
  blacklist_reason : String := ""
deriving Repr, DecidableEq

/-- State of a `ContentFilter` instance: the blacklist threshold, the
`ip_reputations` dict and the `request_history` defaultdict of timestamp
deques. The Groq client is external and does not appear in the state. -/
structure ContentFilter where
  blacklist_threshold : Nat
  ip_reputations : List (String × IPReputation) := []
  request_history : List (String × List Int) := []
deriving Repr, DecidableEq

/-- Safety-stage model name (content_filter.py `self.safety_model`). -/
def safety_model : String := "meta-llama/llama-prompt-guard-2-22m"

/-- Relevance-stage model name (content_filter.py `self.relevance_model`). -/
def relevance_model : String := "llama-3.1-8b-instant"

/-- `ContentFilter.is_ip_blacklisted`: look the IP up in `ip_reputations`,
return its `blacklisted` flag, `False` for unseen IPs. -/
def is_ip_blacklisted (cf : ContentFilter) (client_ip : String) : Bool :=
  match getAssoc cf.ip_reputations client_ip with
  | some rep => rep.blacklisted
  | none => false

/-- The reputation-record update performed by `ContentFilter.track_request`:
increment `total_requests`; on a violation increment `bad_requests`, stamp
`last_violation`, and set `blacklisted` once the threshold is reached. -/
def updateRep (threshold : Nat) (is_violation : Bool) (now : Int)
    (rep : IPReputation) : IPReputation :=
  let rep := { rep with total_requests := rep.total_requests + 1 }
  if is_violation then
    let rep := { rep with bad_requests := rep.bad_requests + 1, last_violation := some now }
    if threshold ≤ rep.bad_requests ∧ ¬rep.blacklisted then
      { rep with blacklisted := true,
                 blacklist_reason := "Exceeded " ++ toString threshold ++ " violations" }
    else rep
  else rep

/-- Drop leading history entries strictly older than `cutoff`
(the `while ... popleft()` loop in `track_request`). -/
def pruneHist (cutoff : Int) : List Int → List Int
  | [] => []
  | t :: ts => if t < cutoff then pruneHist cutoff ts else t :: ts

/-- `ContentFilter.track_request`: create the reputation record on first
sight (`first_seen = now`), apply `updateRep`, append `now` to the request
history deque and prune entries older than 24 hours (86400 seconds). -/
def track_request (cf : ContentFilter) (client_ip : String) (is_violation : Bool)
    (now : Int) : ContentFilter :=
  let rep0 := (getAssoc cf.ip_reputations client_ip).getD { first_seen := some now }
  let rep := updateRep cf.blacklist_threshold is_violation now rep0
  let hist0 := (getAssoc cf.request_history client_ip).getD []
  let hist := pruneHist (now - 86400) (hist0 ++ [now])
  { cf with ip_reputations := setAssoc cf.ip_reputations client_ip rep,
            request_history := setAssoc cf.request_history client_ip hist }

/-- `ContentFilter.manually_blacklist_ip`: create the record if absent, set
`blacklisted` and overwrite `blacklist_reason`. -/
def manually_blacklist_ip (cf : ContentFilter) (client_ip reason : String)
    (now : Int) : ContentFilter :=
  let rep0 := (getAssoc cf.ip_reputations client_ip).getD { first_seen := some now }
  let rep := { rep0 with blacklisted := true, blacklist_reason := reason }
  { cf with ip_reputations := setAssoc cf.ip_reputations client_ip rep }

/-- `ContentFilter.unblacklist_ip`: if the record exists, clear
`blacklisted` and overwrite the reason with an `Unblacklisted:` prefix;
unseen IPs are left untouched. -/
def unblacklist_ip (cf : ContentFilter) (client_ip reason : String) : ContentFilter :=
  match getAssoc cf.ip_reputations client_ip with
  | none => cf
  | some rep =>
      let rep := { rep with blacklisted := false,
                            blacklist_reason := "Unblacklisted: " ++ reason }
      { cf with ip_reputations := setAssoc cf.ip_reputations client_ip rep }

/-! ## The two classifier stages -/

/-- Outcome of one external Groq chat-completion call: either a response
(message content plus optional `usage.total_tokens`), or any raised
exception carrying its message string. -/
inductive ClassifierResponse where
  | ok (content : String) (usage : Option Nat)
  | err (msg : String)
deriving Repr, DecidableEq

/-- Substring test on character lists (model of Python `in` on strings):
does `pat` occur contiguously inside `s`? -/
def startsWithChars : List Char → List Char → Bool
  | [], _ => true
  | _ :: _, [] => false
  | p :: ps, c :: cs => p = c && startsWithChars ps cs

/-- Does `pat` occur as a contiguous run somewhere in `s`? -/
def containsChars (pat : List Char) : List Char → Bool
  | [] => startsWithChars pat []
  | c :: cs => startsWithChars pat (c :: cs) || containsChars pat cs

/-- Python `pat in s` for strings. -/
def strContains (s pat : String) : Bool :=
  containsChars pat.data s.data

/-- `ContentFilter.check_safety` (stage 1): on a response, uppercase and
trim the content, read `usage.total_tokens` (0 if absent), treat the
message as safe iff `"SAFE"` occurs in the result, with confidence 0.9
when either expected token occurs and 0.5 otherwise.  On any exception:
fail closed with `allowed = false`, confidence 0, stage `"safety"`. -/
def check_safety (message : String) (resp : ClassifierResponse) : FilterResult :=
  match resp with
  | .ok content usage =>
      let result := content.trim.toUpper
      let tokens_used := usage.getD 0
      let is_safe := strContains result "SAFE"
      let confidence : ℚ :=
        if strContains result "SAFE" || strContains result "UNSAFE" then 9/10 else 1/2
      { allowed := is_safe,
        reason := if is_safe then "Passed safety check" else "Safety check failed",
        confidence := confidence,
        filter_stage := "safety",
        tokens_used := tokens_used }
  | .err e =>
      { allowed := false,
        reason := "Safety check error: " ++ e,
        confidence := 0,
        filter_stage := "safety",
        tokens_used := 0 }

/-- `ContentFilter.check_mahjong_relevance` (stage 2): on a response,
uppercase and trim the content, treat the message as relevant iff
`"RELEVANT"` occurs in the result, with confidence 0.9 when either
expected token occurs and 0.5 otherwise.  On any exception: fail open with
`allowed = true`, confidence 0, stage `"relevance"`. -/
def check_mahjong_relevance (message : String) (resp : ClassifierResponse) : FilterResult :=
  match resp with
  | .ok content usage =>
      let result := content.trim.toUpper
      let tokens_used := usage.getD 0
      let is_relevant := strContains result "RELEVANT"
      let confidence : ℚ :=
        if strContains result "RELEVANT" || strContains result "IRRELEVANT" then 9/10 else 1/2
      { allowed := is_relevant,
        reason := if is_relevant then "Mahjong-related content" else "Not Mahjong-related",
        confidence := confidence,
        filter_stage := "relevance",
        tokens_used := tokens_used }
  | .err e =>
      { allowed := true,
        reason := "Relevance check error (allowed): " ++ e,
        confidence := 0,
        filter_stage := "relevance",
        tokens_used := 0 }

/-- `ContentFilter.filter_content`: blacklist short-circuit, then the
safety stage, then the relevance stage, then the reputation update.
Returns the updated filter state, the `(allowed, filter_result)` pair of
the source, and the list of classifier models actually invoked (the
outbound-call trace of the pipeline). -/
def filter_content (cf : ContentFilter) (message client_ip : String)
    (sresp rresp : ClassifierResponse) (now : Int) :
    ContentFilter × (Bool × FilterResult) × List String :=
  if is_ip_blacklisted cf client_ip then
    (cf,
     (false,
      { allowed := false, reason := "IP blacklisted", confidence := 1,
        filter_stage := "blacklist", tokens_used := 0 }),
     [])
  else
    let safety_result := check_safety message sresp
    if ¬safety_result.allowed then
      (track_request cf client_ip true now, (false, safety_result), [safety_model])
    else
      let relevance_result := check_mahjong_relevance message rresp
      if ¬relevance_result.allowed then
        (track_request cf client_ip true now, (false, relevance_result),
         [safety_model, relevance_model])
      else
        (track_request cf client_ip false now,
         (true,
          { allowed := true, reason := "Passed all content filters",
            confidence := min safety_result.confidence relevance_result.confidence,
            filter_stage := "complete",
            tokens_used := safety_result.tokens_used + relevance_result.tokens_used }),
         [safety_model, relevance_model])

/-- `bad_requests` counter of a client, 0 for unseen clients. -/
def bad_requests_of (cf : ContentFilter) (client_ip : String) : Nat :=
  ((getAssoc cf.ip_reputations client_ip).map (·.bad_requests)).getD 0

/-- C3: whenever the safety-stage classifier call raises any exception,
`check_safety` fails closed: it returns `allowed = false`,
`filter_stage = "safety"`, `confidence = 0`, `tokens_used = 0`. -/
theorem check_safety_fail_closed (message e : String) :
    check_safety message (.err e) =
      { allowed := false, reason := "Safety check error: " ++ e, confidence := 0,
        filter_stage := "safety", tokens_used := 0 } := by
  rfl

/-- C4: whenever the relevance-stage classifier call raises any exception,
`check_mahjong_relevance` fails open: it returns `allowed = true`,
`filter_stage = "relevance"`, `confidence = 0`. -/
theorem check_relevance_fail_open (message e : String) :
    check_mahjong_relevance message (.err e) =
      { allowed := true, reason := "Relevance check error (allowed): " ++ e,
        confidence := 0, filter_stage := "relevance", tokens_used := 0 } := by
  rfl

/-! ## The `/api/chat` handler's content-filter block (main.py) -/

/-- Number of non-`self` parameters of `ContentFilter.filter_content` as
defined in content_filter.py: `(message, client_ip)`. -/
def filter_content_param_count : Nat := 2

/-- A Python method call: it either returns a value, or raises `TypeError`
when the number of arguments does not match the callee's parameters. -/
inductive PyCall (α : Type) where
  | ok (a : α)
  | typeError
deriving Repr

/-- The call `content_filter_instance.filter_content(message, client_ip,
image_data)` made by `chat_with_ai` (main.py line 141): three positional
arguments against the two-parameter method, so Python raises `TypeError`
before the method body runs. -/
def call_filter_content_from_chat (cf : ContentFilter) (message client_ip : String)
    (image_data : Option String) (sresp rresp : ClassifierResponse) (now : Int) :
    PyCall (ContentFilter × (Bool × FilterResult) × List String) :=
  if 3 = filter_content_param_count then
    PyCall.ok (filter_content cf message client_ip sresp rresp now)
  else
    PyCall.typeError

/-- Outcome of the content-filter block of `chat_with_ai`: either an
`HTTPException` rejection (status code and detail), or fall-through to the
LLM-provider call. -/
inductive ChatFilterOutcome where
  | reject (status : Nat) (detail : String)
  | proceed
deriving Repr, DecidableEq

/-- The content-filter block of `chat_with_ai` (main.py lines 138-167),
entered when the content filter is enabled: call `filter_content`; on a
disallowed result raise the stage-specific `HTTPException`; on any other
exception (the `except Exception` clause, line 164) log and fall through
to the LLM call with the filter state untouched. -/
def chat_with_ai_filter_step (cf : ContentFilter) (message client_ip : String)
    (image_data : Option String) (sresp rresp : ClassifierResponse) (now : Int) :
    ContentFilter × ChatFilterOutcome :=
  match call_filter_content_from_chat cf message client_ip image_data sresp rresp now with
  | .typeError => (cf, .proceed)
  | .ok (cf', (allowed, fr), _calls) =>
      if allowed then (cf', .proceed)
      else if fr.filter_stage = "blacklist" then
        (cf', .reject 503 "Service temporarily unavailable")
      else if fr.filter_stage = "safety" then
        (cf', .reject 400 "Please ensure your message is appropriate and follows community guidelines")
      else if fr.filter_stage = "relevance" then
        (cf', .reject 400 "This service is specifically for Mahjong-related questions. Please ask about Mahjong strategy, rules, or gameplay")
      else
        (cf', .reject 400 "Unable to process your request")

/-- C1: with the content filter enabled, every chat request's filter block
calls `filter_content` with three arguments against a two-parameter
method; the resulting `TypeError` is swallowed by the handler's
`except Exception` clause, so the block always proceeds to the LLM with
the filter state (every client's reputation) unchanged, and never rejects
at the blacklist, safety, or relevance stage. -/
theorem chat_filter_block_never_rejects (cf : ContentFilter) (message client_ip : String)
    (image_data : Option String) (sresp rresp : ClassifierResponse) (now : Int) :
    chat_with_ai_filter_step cf message client_ip image_data sresp rresp now =
      (cf, ChatFilterOutcome.proceed) := by
  rfl

/-! ## C6/C7: the `filter_content` pipeline stages -/

/-- On a violating `track_request`, the stored `bad_requests` counter goes
up by exactly one. -/
theorem updateRep_bad_violation (threshold : Nat) (now : Int) (rep : IPReputation) :
    (updateRep threshold true now rep).bad_requests = rep.bad_requests + 1 := by
  unfold updateRep
  dsimp only
  rw [if_pos rfl]
  split <;> rfl

/-- `track_request` with `is_violation = true` increments the client's
`bad_requests` by exactly one. -/
theorem bad_requests_track_violation (cf : ContentFilter) (ip : String) (now : Int) :
    bad_requests_of (track_request cf ip true now) ip = bad_requests_of cf ip + 1 := by
  unfold bad_requests_of track_request
  dsimp only
  rw [getAssoc_setAssoc_self]
  cases h : getAssoc cf.ip_reputations ip <;> simp [h, updateRep_bad_violation]

/-- C6: for a blacklisted client, `filter_content` rejects at the
blacklist stage with confidence 1 and zero token usage, makes no
classifier call, and leaves the entire filter state — that client's
reputation record and history, and every other client's — unchanged. -/
theorem filter_content_blacklist_frame (cf : ContentFilter) (message client_ip : String)
    (sresp rresp : ClassifierResponse) (now : Int)
    (h : is_ip_blacklisted cf client_ip = true) :
    filter_content cf message client_ip sresp rresp now =
      (cf,
       (false,
        { allowed := false, reason := "IP blacklisted", confidence := 1,
          filter_stage := "blacklist", tokens_used := 0 }),
       []) := by
  unfold filter_content
  simp [h]

/-- C7: for a non-blacklisted client, `filter_content` returns the failing
stage's result and records a violation when safety or relevance rejects
(raising `bad_requests` by exactly one), and on a full pass records a
non-violation and returns an allowed `"complete"` result whose token count
is the sum and whose confidence is the minimum of the two stages'. -/
theorem filter_content_stage_results (cf : ContentFilter) (message client_ip : String)
    (sresp rresp : ClassifierResponse) (now : Int)
    (h : is_ip_blacklisted cf client_ip = false) :
    ((check_safety message sresp).allowed = false →
      filter_content cf message client_ip sresp rresp now =
        (track_request cf client_ip true now, (false, check_safety message sresp),
         [safety_model])) ∧
    ((check_safety message sresp).allowed = true →
     (check_mahjong_relevance message rresp).allowed = false →
      filter_content cf message client_ip sresp rresp now =
        (track_request cf client_ip true now, (false, check_mahjong_relevance message rresp),
         [safety_model, relevance_model])) ∧
    ((check_safety message sresp).allowed = true →
     (check_mahjong_relevance message rresp).allowed = true →
      filter_content cf message client_ip sresp rresp now =
        (track_request cf client_ip false now,
         (true,
          { allowed := true, reason := "Passed all content filters",
            confidence := min (check_safety message sresp).confidence
              (check_mahjong_relevance message rresp).confidence,
            filter_stage := "complete",
            tokens_used := (check_safety message sresp).tokens_used +
              (check_mahjong_relevance message rresp).tokens_used }),
         [safety_model, relevance_model])) ∧
    bad_requests_of (track_request cf client_ip true now) client_ip =
      bad_requests_of cf client_ip + 1 := by
  refine ⟨?_, ?_, ?_, bad_requests_track_violation cf client_ip now⟩
  · intro hs
    unfold filter_content
    simp [h, hs]
  · intro hs hr
    unfold filter_content
    simp [h, hs, hr]
  · intro hs hr
    unfold filter_content
    simp [h, hs, hr]

/-- Concrete filter state for the C6 witness: a blacklisted client. -/
def cfC6 : ContentFilter :=
  { blacklist_threshold := 5,
    ip_reputations :=
      [("9.9.9.9",
        { bad_requests := 5, total_requests := 6, first_seen := some 0,
          last_violation := some 50, blacklisted := true,
          blacklist_reason := "Exceeded 5 violations" })],
    request_history := [] }

/-- Witness for C6 at a concrete blacklisted client. -/
theorem filter_content_blacklist_frame_witness :
    is_ip_blacklisted cfC6 "9.9.9.9" = true ∧
    filter_content cfC6 "hello" "9.9.9.9" (.ok "SAFE" (some 3)) (.ok "RELEVANT" (some 4)) 60 =
      (cfC6,
       (false,
        { allowed := false, reason := "IP blacklisted", confidence := 1,
          filter_stage := "blacklist", tokens_used := 0 }),
       []) :=
  ⟨by decide,
   filter_content_blacklist_frame cfC6 "hello" "9.9.9.9"
     (.ok "SAFE" (some 3)) (.ok "RELEVANT" (some 4)) 60 (by decide)⟩

/-- Concrete filter state for the C7 witness: a fresh, non-blacklisted
client. -/
def cfC7 : ContentFilter :=
  { blacklist_threshold := 5,
    ip_reputations := [("8.8.8.8", { bad_requests := 1, total_requests := 2, first_seen := some 0 })],
    request_history := [("8.8.8.8", [0, 10])] }

/-- Witness for C7 at a concrete non-blacklisted client. -/
theorem filter_content_stage_results_witness :
    is_ip_blacklisted cfC7 "8.8.8.8" = false ∧
    (((check_safety "hi" (.ok "UNSAFE" (some 7))).allowed = false →
      filter_content cfC7 "hi" "8.8.8.8" (.ok "UNSAFE" (some 7)) (.ok "RELEVANT" (some 4)) 20 =
        (track_request cfC7 "8.8.8.8" true 20,
         (false, check_safety "hi" (.ok "UNSAFE" (some 7))), [safety_model])) ∧
     ((check_safety "hi" (.ok "UNSAFE" (some 7))).allowed = true →
      (check_mahjong_relevance "hi" (.ok "RELEVANT" (some 4))).allowed = false →
      filter_content cfC7 "hi" "8.8.8.8" (.ok "UNSAFE" (some 7)) (.ok "RELEVANT" (some 4)) 20 =
        (track_request cfC7 "8.8.8.8" true 20,
         (false, check_mahjong_relevance "hi" (.ok "RELEVANT" (some 4))),
         [safety_model, relevance_model])) ∧
     ((check_safety "hi" (.ok "UNSAFE" (some 7))).allowed = true →
      (check_mahjong_relevance "hi" (.ok "RELEVANT" (some 4))).allowed = true →
      filter_content cfC7 "hi" "8.8.8.8" (.ok "UNSAFE" (some 7)) (.ok "RELEVANT" (some 4)) 20 =
        (track_request cfC7 "8.8.8.8" false 20,
         (true,
          { allowed := true, reason := "Passed all content filters",
            confidence := min (check_safety "hi" (.ok "UNSAFE" (some 7))).confidence
              (check_mahjong_relevance "hi" (.ok "RELEVANT" (some 4))).confidence,
            filter_stage := "complete",
            tokens_used := (check_safety "hi" (.ok "UNSAFE" (some 7))).tokens_used +
              (check_mahjong_relevance "hi" (.ok "RELEVANT" (some 4))).tokens_used }),
         [safety_model, relevance_model])) ∧
     bad_requests_of (track_request cfC7 "8.8.8.8" true 20) "8.8.8.8" =
       bad_requests_of cfC7 "8.8.8.8" + 1) :=
  ⟨by decide,
   filter_content_stage_results cfC7 "hi" "8.8.8.8"
     (.ok "UNSAFE" (some 7)) (.ok "RELEVANT" (some 4)) 20 (by decide)⟩

/-! ## C2: blacklist stickiness under arbitrary operation sequences -/

/-- One externally-triggered `ContentFilter` operation: a direct
`track_request`, a full `filter_content` run (with its classifier
outcomes), a manual blacklist, or a manual unblacklist. -/
inductive FilterOp where
  | track (ip : String) (is_violation : Bool) (now : Int)
  | runFilter (message ip : String) (sresp rresp : ClassifierResponse) (now : Int)
  | manual (ip reason : String) (now : Int)
  | unblack (ip reason : String)

/-- Apply one operation to the filter state. -/
def applyOp (cf : ContentFilter) : FilterOp → ContentFilter
  | .track ip v now => track_request cf ip v now
  | .runFilter m ip s r now => (filter_content cf m ip s r now).1
  | .manual ip reason now => manually_blacklist_ip cf ip reason now
  | .unblack ip reason => unblacklist_ip cf ip reason

/-- Apply a sequence of operations, oldest first. -/
def applyOps (cf : ContentFilter) (ops : List FilterOp) : ContentFilter :=
  ops.foldl applyOp cf

/-- Does this operation explicitly unblacklist `ip`? -/
def isUnblacklistFor (ip : String) : FilterOp → Bool
  | .unblack ip' _ => ip' == ip
  | _ => false

/-- `true` iff no operation in the list explicitly unblacklists `ip`. -/
def noUnblacklistFor (ip : String) (ops : List FilterOp) : Bool :=
  ops.all (fun op => !isUnblacklistFor ip op)

/-- `updateRep` never clears the `blacklisted` flag. -/
theorem updateRep_blacklisted_mono (threshold : Nat) (v : Bool) (now : Int)
    (rep : IPReputation) (h : rep.blacklisted = true) :
    (updateRep threshold v now rep).blacklisted = true := by
  unfold updateRep
  dsimp only
  cases v
  · rw [if_neg (by simp)]
    exact h
  · rw [if_pos rfl]
    rw [if_neg (by simp [h])]
    exact h

/-- `track_request` (for any target client) never clears any client's
`blacklisted` flag. -/
theorem track_request_blacklisted_mono (cf : ContentFilter) (ip' : String) (v : Bool)
    (now : Int) (ip : String) (h : is_ip_blacklisted cf ip = true) :
    is_ip_blacklisted (track_request cf ip' v now) ip = true := by
  unfold is_ip_blacklisted at h ⊢
  unfold track_request
  dsimp only
  by_cases hip : ip' = ip
  · subst hip
    rw [getAssoc_setAssoc_self]
    cases hm : getAssoc cf.ip_reputations ip' with
    | none => rw [hm] at h; exact absurd h (by simp)
    | some rep =>
        rw [hm] at h
        simp only [hm, Option.getD_some]
        exact updateRep_blacklisted_mono _ _ _ _ h
  · rw [getAssoc_setAssoc_other _ _ _ _ hip]
    exact h

/-- The state produced by `filter_content` is either the input state or a
`track_request` on it. -/
theorem filter_content_state_shape (cf : ContentFilter) (m ip : String)
    (s r : ClassifierResponse) (now : Int) :
    (filter_content cf m ip s r now).1 = cf ∨
    ∃ v, (filter_content cf m ip s r now).1 = track_request cf ip v now := by
  unfold filter_content
  by_cases h1 : is_ip_blacklisted cf ip
  · left; simp [h1]
  · right
    by_cases h2 : (check_safety m s).allowed
    · by_cases h3 : (check_mahjong_relevance m r).allowed
      · exact ⟨false, by simp [h1, h2, h3]⟩
      · exact ⟨true, by simp [h1, h2, h3]⟩
    · exact ⟨true, by simp [h1, h2]⟩

/-- `manually_blacklist_ip` never clears any client's flag. -/
theorem manual_blacklist_mono (cf : ContentFilter) (ip' reason : String) (now : Int)
    (ip : String) (h : is_ip_blacklisted cf ip = true) :
    is_ip_blacklisted (manually_blacklist_ip cf ip' reason now) ip = true := by
  unfold is_ip_blacklisted at h ⊢
  unfold manually_blacklist_ip
  dsimp only
  by_cases hip : ip' = ip
  · subst hip
    rw [getAssoc_setAssoc_self]
  · rw [getAssoc_setAssoc_other _ _ _ _ hip]
    exact h

/-- `unblacklist_ip` on a different client leaves this client's flag. -/
theorem unblacklist_other_mono (cf : ContentFilter) (ip' reason ip : String)
    (hip : ip' ≠ ip) (h : is_ip_blacklisted cf ip = true) :
    is_ip_blacklisted (unblacklist_ip cf ip' reason) ip = true := by
  unfold is_ip_blacklisted at h ⊢
  unfold unblacklist_ip
  cases hm : getAssoc cf.ip_reputations ip' with
  | none => exact h
  | some rep =>
      dsimp only
      rw [getAssoc_setAssoc_other _ _ _ _ hip]
      exact h

/-- Any single operation that is not an explicit unblacklist of `ip`
preserves `ip`'s blacklisted status. -/
theorem applyOp_blacklisted_mono (cf : ContentFilter) (ip : String) (op : FilterOp)
    (hop : isUnblacklistFor ip op = false) (h : is_ip_blacklisted cf ip = true) :
    is_ip_blacklisted (applyOp cf op) ip = true := by
  cases op with
  | track ip' v now => exact track_request_blacklisted_mono cf ip' v now ip h
  | runFilter m ip' s r now =>
      show is_ip_blacklisted (filter_content cf m ip' s r now).1 ip = true
      rcases filter_content_state_shape cf m ip' s r now with hs | ⟨v, hs⟩
      · rw [hs]; exact h
      · rw [hs]; exact track_request_blacklisted_mono cf ip' v now ip h
  | manual ip' reason now => exact manual_blacklist_mono cf ip' reason now ip h
  | unblack ip' reason =>
      have hip : ip' ≠ ip := by
        simpa [isUnblacklistFor] using hop
      exact unblacklist_other_mono cf ip' reason ip hip h

/-- Sequences of non-unblacklist operations preserve blacklisted status. -/
theorem applyOps_blacklisted_mono (ip : String) :
    ∀ (ops : List FilterOp) (cf : ContentFilter),
      noUnblacklistFor ip ops = true → is_ip_blacklisted cf ip = true →
      is_ip_blacklisted (applyOps cf ops) ip = true := by
  intro ops
  induction ops with
  | nil => intro cf _ h; exact h
  | cons op rest ih =>
      intro cf hno h
      have hno' : noUnblacklistFor ip rest = true ∧ isUnblacklistFor ip op = false := by
        simp only [noUnblacklistFor, List.all_cons, Bool.and_eq_true, Bool.not_eq_true'] at hno
        exact ⟨hno.2, hno.1⟩
      show is_ip_blacklisted (applyOps (applyOp cf op) rest) ip = true
      exact ih (applyOp cf op) hno'.1 (applyOp_blacklisted_mono cf ip op hno'.2 h)

/-- A violating `track_request` that leaves `bad_requests` at or above the
threshold leaves the client blacklisted. -/
theorem track_violation_blacklists (cf : ContentFilter) (ip : String) (now : Int)
    (h : cf.blacklist_threshold ≤ bad_requests_of (track_request cf ip true now) ip) :
    is_ip_blacklisted (track_request cf ip true now) ip = true := by
  rw [bad_requests_track_violation] at h
  unfold is_ip_blacklisted track_request
  dsimp only
  rw [getAssoc_setAssoc_self]
  have hbad : bad_requests_of cf ip =
      ((getAssoc cf.ip_reputations ip).getD { first_seen := some now }).bad_requests := by
    unfold bad_requests_of
    cases hm : getAssoc cf.ip_reputations ip <;> simp [hm]
  rw [hbad] at h
  generalize (getAssoc cf.ip_reputations ip).getD { first_seen := some now } = rep0 at h ⊢
  unfold updateRep
  dsimp only
  rw [if_pos rfl]
  by_cases hb : rep0.blacklisted
  · rw [if_neg (by simp [hb])]
    exact hb
  · rw [if_pos ⟨h, by simp [hb]⟩]

/-- C2: once a violating `track_request` brings a client's `bad_requests`
to at least `blacklist_threshold`, `is_ip_blacklisted` returns `true` for
that client after every further sequence of operations — tracking
(violating or not), full filter runs, manual blacklists — until an
explicit `unblacklist_ip` for that client. -/
theorem blacklist_sticky (cf : ContentFilter) (ip : String) (now : Int)
    (ops : List FilterOp)
    (hthresh : cf.blacklist_threshold ≤ bad_requests_of (track_request cf ip true now) ip)
    (hno : noUnblacklistFor ip ops = true) :
    is_ip_blacklisted (applyOps (track_request cf ip true now) ops) ip = true :=
  applyOps_blacklisted_mono ip ops (track_request cf ip true now) hno
    (track_violation_blacklists cf ip now hthresh)

/-- Concrete filter state for the C2 witness: a client one violation away
from the threshold. -/
def cfC2 : ContentFilter :=
  { blacklist_threshold := 2,
    ip_reputations :=
      [("1.1.1.1", { bad_requests := 1, total_requests := 3, first_seen := some 0,
                     last_violation := some 5 })],
    request_history := [("1.1.1.1", [0, 5, 7])] }

/-- Operation sequence for the C2 witness: non-violating tracking of the
client, activity of other clients, and an unblacklist of a different
client. -/
def opsC2 : List FilterOp :=
  [FilterOp.track "1.1.1.1" false 200,
   FilterOp.track "2.2.2.2" true 300,
   FilterOp.unblack "2.2.2.2" "appeal accepted",
   FilterOp.manual "3.3.3.3" "abuse report" 400,
   FilterOp.runFilter "how do I win at mahjong" "1.1.1.1"
     (.ok "SAFE" (some 5)) (.ok "RELEVANT" (some 6)) 500]

/-- Witness for C2 at a concrete client, threshold and op sequence. -/
theorem blacklist_sticky_witness :
    (cfC2.blacklist_threshold ≤ bad_requests_of (track_request cfC2 "1.1.1.1" true 100) "1.1.1.1" ∧
     noUnblacklistFor "1.1.1.1" opsC2 = true) ∧
    is_ip_blacklisted (applyOps (track_request cfC2 "1.1.1.1" true 100) opsC2) "1.1.1.1" = true :=
  ⟨⟨by decide, by decide⟩,
   blacklist_sticky cfC2 "1.1.1.1" 100 opsC2 (by decide) (by decide)⟩

/-! ## Rate limiter (security.py) -/

/-- `RateLimiter` state (security.py): the limits and the per-client
deques of admission timestamps. `time.time()` values are rationals. -/
structure RateLimiter where
  max_requests : Nat
  window_seconds : ℚ
  requests : List (String × List ℚ) := []
deriving Repr, DecidableEq

/-- The `while client_requests and client_requests[0] <= now - window`
pruning loop of `is_allowed`: pop entries from the left while they are at
least `window_seconds` old. -/
def pruneWindow (window now : ℚ) : List ℚ → List ℚ
  | [] => []
  | t :: ts => if t ≤ now - window then pruneWindow window now ts else t :: ts

/-- `RateLimiter.is_allowed`: prune the client's window, reject (recording
only the pruning) when the remaining count has reached `max_requests`,
otherwise append `now` and admit. -/
def is_allowed (rl : RateLimiter) (client_ip : String) (now : ℚ) : Bool × RateLimiter :=
  let client_requests := (getAssoc rl.requests client_ip).getD []
  let pruned := pruneWindow rl.window_seconds now client_requests
  if rl.max_requests ≤ pruned.length then
    (false, { rl with requests := setAssoc rl.requests client_ip pruned })
  else
    (true, { rl with requests := setAssoc rl.requests client_ip (pruned ++ [now]) })

/-- The recorded window of a client, `[]` when untracked. -/
def windowOf (rl : RateLimiter) (client_ip : String) : List ℚ :=
  (getAssoc rl.requests client_ip).getD []

/-- A sequence of `is_allowed` calls for one client, returning the verdict
list and the final limiter state. -/
def runCalls (rl : RateLimiter) (client_ip : String) : List ℚ → List Bool × RateLimiter
  | [] => ([], rl)
  | t :: ts =>
      let step := is_allowed rl client_ip t
      let rest := runCalls step.2 client_ip ts
      (step.1 :: rest.1, rest.2)

/-- Bool check that a timestamp list is nondecreasing with all pairs less
than `window` apart (a W-second span of monotone call times). -/
def withinSpan (window : ℚ) : List ℚ → Bool
  | [] => true
  | t :: ts => ts.all (fun u => t ≤ u && u - t < window) && withinSpan window ts

theorem withinSpan_rel (window : ℚ) :
    ∀ (xs ys : List ℚ), withinSpan window (xs ++ ys) = true →
      ∀ x ∈ xs, ∀ y ∈ ys, x ≤ y ∧ y - x < window := by
  intro xs
  induction xs with
  | nil => intro ys _ x hx; exact absurd hx (List.not_mem_nil x)
  | cons a xs ih =>
      intro ys hspan x hx y hy
      simp only [List.cons_append, withinSpan, Bool.and_eq_true, List.all_eq_true] at hspan
      rcases List.mem_cons.mp hx with rfl | hx'
      · have := hspan.1 y (List.mem_append_right xs hy)
        simpa [Bool.and_eq_true, decide_eq_true_eq] using this
      · exact ih ys hspan.2 x hx' y hy

theorem withinSpan_tail (window : ℚ) (t : ℚ) (ts : List ℚ)
    (h : withinSpan window (t :: ts) = true) : withinSpan window ts = true := by
  simp only [withinSpan, Bool.and_eq_true] at h
  exact h.2

/-- Pruning removes nothing from a window whose head is still recent. -/
theorem pruneWindow_recent (window now : ℚ) (ws : List ℚ)
    (h : ∀ w ∈ ws, ¬(w ≤ now - window)) : pruneWindow window now ws = ws := by
  cases ws with
  | nil => rfl
  | cons w ws' =>
      unfold pruneWindow
      rw [if_neg (h w (List.mem_cons_self w ws'))]

/-- Pruning never lengthens a window. -/
theorem pruneWindow_length_le (window now : ℚ) :
    ∀ ws : List ℚ, (pruneWindow window now ws).length ≤ ws.length := by
  intro ws
  induction ws with
  | nil => exact Nat.le_refl 0
  | cons w ws' ih =>
      unfold pruneWindow
      split
      · exact Nat.le_succ_of_le ih
      · exact Nat.le_refl _

theorem withinSpan_append_left (window : ℚ) :
    ∀ (xs ys : List ℚ), withinSpan window (xs ++ ys) = true → withinSpan window xs = true := by
  intro xs
  induction xs with
  | nil => intro ys _; rfl
  | cons a xs ih =>
      intro ys h
      simp only [List.cons_append, withinSpan, Bool.and_eq_true, List.all_eq_true] at h ⊢
      refine ⟨fun u hu => h.1 u (List.mem_append_left ys hu), ih ys h.2⟩

/-- From a state whose only window is `ws` for this client, a monotone
in-span call sequence that keeps the total count within `max_requests` is
admitted in full, appending exactly the call times. -/
theorem runCalls_admits (N : Nat) (W : ℚ) (ip : String) :
    ∀ (ts ws : List ℚ),
      ws.length + ts.length ≤ N →
      withinSpan W (ws ++ ts) = true →
      runCalls { max_requests := N, window_seconds := W, requests := [(ip, ws)] } ip ts =
        (List.replicate ts.length true,
         { max_requests := N, window_seconds := W, requests := [(ip, ws ++ ts)] }) := by
  intro ts
  induction ts with
  | nil =>
      intro ws _ _
      simp [runCalls]
  | cons t ts' ih =>
      intro ws hlen hspan
      simp only [List.length_cons] at hlen
      have hhead : ∀ w ∈ ws, ¬(w ≤ t - W) := by
        intro w hw hle
        have hrel := withinSpan_rel W ws (t :: ts') hspan w hw t (List.mem_cons_self t ts')
        linarith [hrel.2]
      have hstep :
          is_allowed { max_requests := N, window_seconds := W, requests := [(ip, ws)] } ip t =
          (true, { max_requests := N, window_seconds := W, requests := [(ip, ws ++ [t])] }) := by
        unfold is_allowed
        dsimp only
        have hget : getAssoc [(ip, ws)] ip = some ws := by simp [getAssoc]
        rw [hget]
        simp only [Option.getD_some]
        rw [pruneWindow_recent W t ws hhead]
        rw [if_neg (by omega)]
        simp [setAssoc]
      have hspan' : withinSpan W ((ws ++ [t]) ++ ts') = true := by
        rw [List.append_assoc]
        simpa using hspan
      have hlen' : (ws ++ [t]).length + ts'.length ≤ N := by
        simp only [List.length_append, List.length_singleton]
        omega
      unfold runCalls
      rw [hstep]
      dsimp only
      rw [ih (ws ++ [t]) hlen' hspan']
      simp [List.replicate_succ, List.append_assoc]

/-- A freshly constructed rate limiter (no client windows recorded yet),
as built by `RateLimiter(max_requests, window_seconds)` in security.py. -/
def freshLimiter (N : Nat) (W : ℚ) : RateLimiter :=
  { max_requests := N, window_seconds := W, requests := [] }

/-- C5: starting from a fresh limiter with `max_requests = N` and window
`W`, the `N` monotone calls of an in-span sequence are all admitted; the
`(N+1)`-th call inside the same span is rejected and — the window being
unchanged — its timestamp is not recorded (only admissions append); and
one further call made at least `W` seconds after the oldest admitted call
is admitted again. -/
theorem rate_limiter_sliding_window (N : Nat) (W : ℚ) (ip : String)
    (t0 : ℚ) (rest : List ℚ) (t_rej t_ok : ℚ)
    (hN : 0 < N)
    (hlen : (t0 :: rest).length = N)
    (hspan : withinSpan W ((t0 :: rest) ++ [t_rej]) = true)
    (hok : t0 + W ≤ t_ok) :
    (runCalls (freshLimiter N W) ip (t0 :: rest)).1 = List.replicate N true ∧
    windowOf (runCalls (freshLimiter N W) ip (t0 :: rest)).2 ip = t0 :: rest ∧
    (is_allowed (runCalls (freshLimiter N W) ip (t0 :: rest)).2 ip t_rej).1 = false ∧
    windowOf (is_allowed (runCalls (freshLimiter N W) ip (t0 :: rest)).2 ip t_rej).2 ip =
      t0 :: rest ∧
    (is_allowed (is_allowed (runCalls (freshLimiter N W) ip (t0 :: rest)).2 ip t_rej).2
      ip t_ok).1 = true := by
  simp only [List.length_cons] at hlen
  have hspanN : withinSpan W (t0 :: rest) = true :=
    withinSpan_append_left W (t0 :: rest) [t_rej] hspan
  have h1 : is_allowed (freshLimiter N W) ip t0 =
      (true, { max_requests := N, window_seconds := W, requests := [(ip, [t0])] }) := by
    unfold freshLimiter is_allowed
    dsimp only [getAssoc, Option.getD_none]
    rw [show pruneWindow W t0 [] = [] from rfl]
    rw [if_neg (by simp only [List.length_nil]; omega)]
    simp [setAssoc]
  have hmain := runCalls_admits N W ip rest [t0] (by simp; omega) (by simpa using hspanN)
  have hrun : runCalls (freshLimiter N W) ip (t0 :: rest) =
      (true :: List.replicate rest.length true,
       { max_requests := N, window_seconds := W, requests := [(ip, t0 :: rest)] }) := by
    unfold runCalls
    rw [h1]
    dsimp only
    rw [hmain]
    simp
  rw [hrun]
  have hkeep : ∀ w ∈ t0 :: rest, ¬(w ≤ t_rej - W) := by
    intro w hw hle
    have hrel := withinSpan_rel W (t0 :: rest) [t_rej] hspan w hw t_rej (by simp)
    linarith [hrel.2]
  have hrej :
      is_allowed { max_requests := N, window_seconds := W, requests := [(ip, t0 :: rest)] } ip t_rej =
      (false, { max_requests := N, window_seconds := W, requests := [(ip, t0 :: rest)] }) := by
    unfold is_allowed
    dsimp only
    have hget : getAssoc [(ip, t0 :: rest)] ip = some (t0 :: rest) := by simp [getAssoc]
    rw [hget]
    simp only [Option.getD_some]
    rw [pruneWindow_recent W t_rej (t0 :: rest) hkeep]
    rw [if_pos (by simp only [List.length_cons]; omega)]
    simp [setAssoc]
  rw [hrej]
  have hprune_ok : pruneWindow W t_ok (t0 :: rest) = pruneWindow W t_ok rest := by
    have h0 : t0 ≤ t_ok - W := by linarith
    simp [pruneWindow, h0]
  have hadmit :
      (is_allowed { max_requests := N, window_seconds := W, requests := [(ip, t0 :: rest)] } ip t_ok).1 = true := by
    unfold is_allowed
    dsimp only
    have hget : getAssoc [(ip, t0 :: rest)] ip = some (t0 :: rest) := by simp [getAssoc]
    rw [hget]
    simp only [Option.getD_some]
    rw [hprune_ok]
    have hlt : (pruneWindow W t_ok rest).length < N := by
      have := pruneWindow_length_le W t_ok rest
      omega
    rw [if_neg (by omega)]
  refine ⟨by rw [← hlen]; simp [List.replicate_succ], by simp [windowOf, getAssoc], rfl,
    by simp [windowOf, getAssoc], hadmit⟩

/-- Witness for C5 with `N = 2`, `W = 10`: admissions at times 0 and 1, a
rejection at time 2, and a renewed admission at time 10. -/
theorem rate_limiter_sliding_window_witness :
    ((0 : Nat) < 2 ∧ ((0 : ℚ) :: [1]).length = 2 ∧
     withinSpan 10 (((0 : ℚ) :: [1]) ++ [2]) = true ∧ (0 : ℚ) + 10 ≤ 10) ∧
    ((runCalls (freshLimiter 2 10) "c" ((0 : ℚ) :: [1])).1 = List.replicate 2 true ∧
     windowOf (runCalls (freshLimiter 2 10) "c" ((0 : ℚ) :: [1])).2 "c" = (0 : ℚ) :: [1] ∧
     (is_allowed (runCalls (freshLimiter 2 10) "c" ((0 : ℚ) :: [1])).2 "c" 2).1 = false ∧
     windowOf (is_allowed (runCalls (freshLimiter 2 10) "c" ((0 : ℚ) :: [1])).2 "c" 2).2 "c" =
       (0 : ℚ) :: [1] ∧
     (is_allowed (is_allowed (runCalls (freshLimiter 2 10) "c" ((0 : ℚ) :: [1])).2 "c" 2).2
       "c" 10).1 = true) :=
  ⟨⟨by decide, rfl, by norm_num [withinSpan], by norm_num⟩,
   rate_limiter_sliding_window 2 10 "c" 0 [1] 2 10 (by decide) rfl
     (by norm_num [withinSpan]) (by norm_num)⟩

/-! ## Image quality gate (image_quality.py) -/

/-- One contour found by `cv2.findContours` on the edge map, summarised by
the two measurements `detect_tile_regions` reads: its `contourArea` and
the vertex count of its `approxPolyDP` simplification. -/
structure Contour where
  area : ℚ
  approx_len : Nat
deriving Repr, DecidableEq

/-- A successfully decoded image, summarised by the measurements the
quality checks read off the pixel grid: dimensions, Laplacian variance of
the grayscale (`check_blur`), mean and standard deviation of grayscale
intensity (`check_brightness`, `check_contrast`), and the contours of the
Canny edge map (`detect_tile_regions`). The pixel-level primitives
(cv2/PIL) are external capabilities. -/
structure DecodedImage where
  width : Nat
  height : Nat
  laplacian_var : ℚ
  mean_brightness : ℚ
  std_intensity : ℚ
  contours : List Contour
deriving Repr, DecidableEq

/-- The base64 payload handed to `assess_quality`: its string length (used
for the size estimate) and the outcome of the external decoder
(`None` when PIL/cv2 cannot decode the bytes). -/
structure ImagePayload where
  b64_length : Nat
  decoded : Option DecodedImage
deriving Repr, DecidableEq

/-- `ImageQualityResult` dataclass (image_quality.py). -/
structure ImageQualityResult where
  is_acceptable : Bool
  blur_score : ℚ
  brightness_score : ℚ
  contrast_score : ℚ
  sharpness_score : ℚ
  issues : List String
  recommendations : List String
deriving Repr, DecidableEq

/-- Threshold configuration of `ImageQualityChecker.__init__`. -/
structure ImageQualityChecker where
  blur_threshold : ℚ := 100
  min_brightness : ℚ := 30
  max_brightness : ℚ := 240
  min_contrast : ℚ := 20
  min_resolution : Nat × Nat := (300, 300)
  max_file_size : Nat := 10 * 1024 * 1024
deriving Repr, DecidableEq

/-- `ImageQualityChecker.decode_base64_image`: defer to the external
decoder's outcome, `None` on any decoding exception. -/
def decode_base64_image (p : ImagePayload) : Option DecodedImage :=
  p.decoded

/-- `check_blur`: Laplacian variance against `blur_threshold`. -/
def check_blur (c : ImageQualityChecker) (image : DecodedImage) : ℚ × Bool :=
  (image.laplacian_var, c.blur_threshold ≤ image.laplacian_var)

/-- `check_brightness`: mean grayscale intensity within
`[min_brightness, max_brightness]`. -/
def check_brightness (c : ImageQualityChecker) (image : DecodedImage) : ℚ × Bool :=
  (image.mean_brightness,
   c.min_brightness ≤ image.mean_brightness && image.mean_brightness ≤ c.max_brightness)

/-- `check_contrast`: grayscale standard deviation against `min_contrast`. -/
def check_contrast (c : ImageQualityChecker) (image : DecodedImage) : ℚ × Bool :=
  (image.std_intensity, c.min_contrast ≤ image.std_intensity)

/-- `check_resolution`: both dimensions at least `min_resolution`. -/
def check_resolution (c : ImageQualityChecker) (image : DecodedImage) :
    (Nat × Nat) × Bool :=
  ((image.width, image.height),
   c.min_resolution.1 ≤ image.width && c.min_resolution.2 ≤ image.height)

/-- `detect_tile_regions`: count contours whose area lies in
`[500, (height * width) / 4]` (integer division, as in the source) and
whose simplified polygon has at least 4 vertices; at least one such
contour means tiles are likely present. -/
def detect_tile_regions (image : DecodedImage) : Nat × Bool :=
  let min_area : ℚ := 500
  let max_area : ℚ := ((image.height * image.width) / 4 : Nat)
  let potential_tiles :=
    (image.contours.filter
      (fun ct => min_area ≤ ct.area && ct.area ≤ max_area && 4 ≤ ct.approx_len)).length
  (potential_tiles, 1 ≤ potential_tiles)

/-- `ImageQualityChecker.assess_quality`: decode (early return on
failure), then run the size estimate and the five metric checks in source
order, appending one issue and one recommendation per failing check, and
accept only when every check passes. -/
def assess_quality (c : ImageQualityChecker) (p : ImagePayload) : ImageQualityResult :=
  match decode_base64_image p with
  | none =>
      { is_acceptable := false, blur_score := 0, brightness_score := 0,
        contrast_score := 0, sharpness_score := 0,
        issues := ["Failed to decode image"],
        recommendations := ["Please upload a valid image file (JPEG, PNG, etc.)"] }
  | some image =>
      let estimated_size : ℚ := (p.b64_length : ℚ) * 3 / 4
      let size_ok : Bool := estimated_size ≤ (c.max_file_size : ℚ)
      let res := check_resolution c image
      let res_ok := res.2
      let blur := check_blur c image
      let blur_score := blur.1
      let is_sharp := blur.2
      let bright := check_brightness c image
      let brightness_score := bright.1
      let is_well_lit := bright.2
      let contrast := check_contrast c image
      let contrast_score := contrast.1
      let has_contrast := contrast.2
      let tiles := detect_tile_regions image
      let has_tiles := tiles.2
      let issues :=
        (if size_ok then [] else
          ["Image too large (" ++ toString (estimated_size / 1024 / 1024) ++ "MB)"]) ++
        (if res_ok then [] else
          ["Resolution too low (" ++ toString res.1.1 ++ "x" ++ toString res.1.2 ++ ")"]) ++
        (if is_sharp then [] else
          ["Image is blurry (sharpness: " ++ toString blur_score ++ ")"]) ++
        (if is_well_lit then [] else
          [if brightness_score < c.min_brightness then
            "Image too dark (brightness: " ++ toString brightness_score ++ ")"
           else
            "Image overexposed (brightness: " ++ toString brightness_score ++ ")"]) ++
        (if has_contrast then [] else
          ["Poor contrast (contrast: " ++ toString contrast_score ++ ")"]) ++
        (if has_tiles then [] else ["No clear tile shapes detected"])
      let recommendations :=
        (if size_ok then [] else ["Please compress the image or take a smaller photo"]) ++
        (if res_ok then [] else
          ["Please use at least " ++ toString c.min_resolution.1 ++ "x" ++
            toString c.min_resolution.2 ++ " resolution"]) ++
        (if is_sharp then [] else
          ["Please hold the camera steady and ensure the tiles are in focus"]) ++
        (if is_well_lit then [] else
          [if brightness_score < c.min_brightness then
            "Please take the photo in better lighting or use flash"
           else
            "Please reduce lighting or move away from bright light sources"]) ++
        (if has_contrast then [] else
          ["Please ensure good lighting with clear tile edges visible"]) ++
        (if has_tiles then [] else
          ["Please ensure Mahjong tiles are clearly visible and well-framed"])
      let sharpness_score := min 100 (max 0 ((blur_score / c.blur_threshold) * 100))
      { is_acceptable :=
          is_sharp && is_well_lit && has_contrast && res_ok && has_tiles && size_ok,
        blur_score := blur_score,
        brightness_score := brightness_score,
        contrast_score := contrast_score,
        sharpness_score := sharpness_score,
        issues := issues,
        recommendations := recommendations }

/-- C8: when the image data cannot be decoded, `assess_quality` returns
(without raising) a report with `is_acceptable = false`, exactly the one
issue `"Failed to decode image"`, and all four scores zero. -/
theorem assess_quality_decode_failure (c : ImageQualityChecker) (p : ImagePayload)
    (h : p.decoded = none) :
    assess_quality c p =
      { is_acceptable := false, blur_score := 0, brightness_score := 0,
        contrast_score := 0, sharpness_score := 0,
        issues := ["Failed to decode image"],
        recommendations := ["Please upload a valid image file (JPEG, PNG, etc.)"] } := by
  unfold assess_quality decode_base64_image
  rw [h]

/-- Witness for C8 on a concrete undecodable payload. -/
theorem assess_quality_decode_failure_witness :
    (ImagePayload.mk 40 none).decoded = none ∧
    assess_quality {} (ImagePayload.mk 40 none) =
      { is_acceptable := false, blur_score := 0, brightness_score := 0,
        contrast_score := 0, sharpness_score := 0,
        issues := ["Failed to decode image"],
        recommendations := ["Please upload a valid image file (JPEG, PNG, etc.)"] } :=
  ⟨rfl, assess_quality_decode_failure {} (ImagePayload.mk 40 none) rfl⟩

/-- The six pass/fail verdicts of `assess_quality` for a decoded image, in
the order the source appends their issues: size estimate, resolution,
sharpness, brightness, contrast, tile shapes. -/
def qualityChecks (c : ImageQualityChecker) (p : ImagePayload)
    (image : DecodedImage) : List Bool :=
  [decide ((p.b64_length : ℚ) * 3 / 4 ≤ (c.max_file_size : ℚ)),
   (check_resolution c image).2,
   (check_blur c image).2,
   (check_brightness c image).2,
   (check_contrast c image).2,
   (detect_tile_regions image).2]

/-- C9: for a successfully decoded image, `assess_quality` accepts exactly
when all five metric checks and the size check pass, and every failing
check appends exactly one issue and one recommendation — all checks are
evaluated, with no short-circuiting. -/
theorem assess_quality_accumulates (c : ImageQualityChecker) (p : ImagePayload)
    (image : DecodedImage) (h : p.decoded = some image) :
    (assess_quality c p).is_acceptable = (qualityChecks c p image).all id ∧
    (assess_quality c p).issues.length = (qualityChecks c p image).count false ∧
    (assess_quality c p).recommendations.length = (qualityChecks c p image).count false := by
  have hq : decode_base64_image p = some image := h
  simp only [assess_quality, hq]
  cases hsz : decide ((p.b64_length : ℚ) * 3 / 4 ≤ (c.max_file_size : ℚ)) <;>
  cases hres : (check_resolution c image).2 <;>
  cases hblur : (check_blur c image).2 <;>
  cases hbr : (check_brightness c image).2 <;>
  cases hcon : (check_contrast c image).2 <;>
  cases htil : (detect_tile_regions image).2 <;>
    simp [qualityChecks, hsz, hres, hblur, hbr, hcon, htil, List.count_cons]

/-- Decoded image for the C9 witness: sharp, well lit, contrasty, large
enough and containing one tile-sized rectangular contour. -/
def imageC9 : DecodedImage :=
  { width := 400, height := 300, laplacian_var := 150, mean_brightness := 100,
    std_intensity := 50, contours := [{ area := 1000, approx_len := 4 }] }

/-- Witness for C9 on a concrete decoded image with default thresholds. -/
theorem assess_quality_accumulates_witness :
    (ImagePayload.mk 1000 (some imageC9)).decoded = some imageC9 ∧
    ((assess_quality {} (ImagePayload.mk 1000 (some imageC9))).is_acceptable =
       (qualityChecks {} (ImagePayload.mk 1000 (some imageC9)) imageC9).all id ∧
     (assess_quality {} (ImagePayload.mk 1000 (some imageC9))).issues.length =
       (qualityChecks {} (ImagePayload.mk 1000 (some imageC9)) imageC9).count false ∧
     (assess_quality {} (ImagePayload.mk 1000 (some imageC9))).recommendations.length =
       (qualityChecks {} (ImagePayload.mk 1000 (some imageC9)) imageC9).count false) :=
  ⟨rfl, assess_quality_accumulates {} (ImagePayload.mk 1000 (some imageC9)) imageC9 rfl⟩

/-! ## Malicious-pattern gate (security.py) -/

/-- A single-character test of the regex subset the catalogue uses:
a literal character (case-insensitive, `re.IGNORECASE`), the digit class
`[0-9]`, or the whitespace class. -/
inductive CharTest where
  | lit (c : Char)
  | digit
  | white
deriving Repr, DecidableEq

/-- Evaluate a character test. -/
def CharTest.test : CharTest → Char → Bool
  | .lit c, a => a.toLower == c.toLower
  | .digit, a => decide ('0' ≤ a) && decide (a ≤ '9')
  | .white, a =>
      a == ' ' || a == '\t' || a == '\n' || a == '\r' ||
      a == Char.ofNat 11 || a == Char.ofNat 12

/-- The regex subset needed by the `MALICIOUS_PATTERNS` catalogue:
empty pattern, one-character tests, concatenation, alternation,
one-or-more repetition of a character test, and the end anchor. -/
inductive Rx where
  | eps
  | tok (t : CharTest)
  | seq (a b : Rx)
  | alt (a b : Rx)
  | rep1 (t : CharTest)
  | eos
deriving Repr

/-- Match one-or-more characters passing `t`, then hand the rest to the
continuation, trying every split. -/
def matchRep (t : CharTest) : List Char → (List Char → Bool) → Bool
  | [], _ => false
  | c :: rest, k => CharTest.test t c && (k rest || matchRep t rest k)

/-- Backtracking matcher: does some prefix of the input match `r`, with
the continuation accepting the remainder? -/
def matchRx : Rx → List Char → (List Char → Bool) → Bool
  | .eps, s, k => k s
  | .tok _, [], _ => false
  | .tok t, c :: rest, k => CharTest.test t c && k rest
  | .seq a b, s, k => matchRx a s (fun s2 => matchRx b s2 k)
  | .alt a b, s, k => matchRx a s k || matchRx b s k
  | .rep1 t, s, k => matchRep t s k
  | .eos, s, k => s.isEmpty && k s

/-- `re.search` over character lists: try a match at every start
position. -/
def rsearch (r : Rx) : List Char → Bool
  | [] => matchRx r [] (fun _ => true)
  | c :: rest => matchRx r (c :: rest) (fun _ => true) || rsearch r rest

/-- `pattern.search(s)` as a Boolean: does `r` match anywhere in `s`? -/
def regex_search (r : Rx) (s : String) : Bool :=
  rsearch r s.data

/-- Literal-string pattern. -/
def rstr (s : String) : Rx :=
  (s.data.map (fun c => Rx.tok (.lit c))).foldr Rx.seq Rx.eps

/-- Concatenation of a pattern list. -/
def rcat (rs : List Rx) : Rx :=
  rs.foldr Rx.seq Rx.eps

/-- Alternation of a pattern list (first alternative tried first). -/
def raltList : List Rx → Rx
  | [] => Rx.eps
  | [r] => r
  | r :: rest => Rx.alt r (raltList rest)

/-- Alternation of literal strings, e.g. `(admin|rdp|remote)`. -/
def rstrs (ss : List String) : Rx :=
  raltList (ss.map rstr)

/-- Optional group `(...)?`. -/
def ropt (r : Rx) : Rx :=
  Rx.alt r Rx.eps

/-- The `MALICIOUS_PATTERNS` catalogue of security.py, in source order. -/
def MALICIOUS_PATTERNS : List Rx :=
  [rcat [rstr "/", rstrs ["admin", "administrator", "rdp", "remote", "desktop"]],
   rstr "/mstsc",
   rcat [rstr "/", rstrs ["login", "signin", "auth"], rstr ".php"],
   rcat [rstr "/", rstrs ["wiki", "mediawiki", "wordpress", "wp-admin", "wp-login"]],
   rstr "/phpMyAdmin",
   rstr "/phpmyadmin",
   rstr "/.env",
   rcat [rstr "/config.", rstrs ["php", "json", "yml", "yaml"]],
   rcat [rstr "/", rstrs ["backup", "backups", "dump", "sql"]],
   rcat [rstr "/.", rstrs ["git", "svn", "hg"], rstr "/"],
   rstr "..",
   rstr "%2e%2e",
   rcat [rstr "/", Rx.rep1 (.lit '/')],
   rstr "<script",
   rstr "javascript:",
   rstr "vbscript:",
   rcat [rstrs ["eval", "exec", "system"], rstr "("],
   rcat [rstrs ["union", "select", "insert", "update", "delete", "drop"],
         Rx.rep1 .white, ropt (rcat [rstr "all", Rx.rep1 .white]),
         rstrs ["select", "from", "where"]],
   rstrs ["|", "&", ";", "`", "$("],
   rcat [rstr "/", rstrs ["etc/passwd", "proc/version", "windows/system32"]],
   rcat [rstr ".", rstrs ["php", "asp", "jsp", "py", "pl", "cgi"], rstr "?"],
   rcat [rstr "/", rstrs ["robots.txt", "sitemap.xml"], Rx.eos],
   rcat [rstr "/.", rstrs ["well-known", "htaccess", "htpasswd"]],
   rcat [rstr "/", rstrs ["wp-content", "wp-includes", "drupal", "joomla"]],
   rcat [rstr "/", rstrs ["cgi-bin", "bin/sh", "usr/bin"]],
   rcat [rstr "/", rstrs ["soap", "xmlrpc", "rpc2", "rpc"]],
   rcat [rstr "/", ropt (rcat [rstr "api/v", Rx.rep1 .digit, rstr "/"]),
         rstrs ["user", "users", "admin", "login", "auth", "token"]]]

/-- The `bot_patterns` list checked against the user agent. -/
def BOT_PATTERNS : List Rx :=
  [rstrs ["sqlmap", "nikto", "nmap", "masscan", "zmap"],
   rstrs ["gobuster", "dirb", "dirbuster", "wfuzz"],
   rstrs ["burp", "owasp", "zaproxy"],
   rstrs ["python-requests/", "curl/", "wget/"]]

/-- `is_malicious_request` (security.py): the path is checked against the
catalogue, then the query string (only when nonempty), then the user
agent against the bot signatures (only when nonempty); the first match
wins and produces its reason string. -/
def is_malicious_request (path : String) (user_agent : String) (query_params : String) :
    Bool × String :=
  if MALICIOUS_PATTERNS.any (fun p => regex_search p path) then
    (true, "Malicious path pattern detected: " ++ path)
  else if query_params ≠ "" && MALICIOUS_PATTERNS.any (fun p => regex_search p query_params) then
    (true, "Malicious query parameter detected: " ++ query_params)
  else if user_agent ≠ "" && BOT_PATTERNS.any (fun p => regex_search p user_agent) then
    (true, "Suspicious user agent: " ++ user_agent)
  else
    (false, "")

/-- C10: the pattern gate classifies `/wp-admin/install.php` as malicious
with a path-pattern reason, and `/api/chat` as clean: no pattern of the
catalogue matches it. -/
theorem pattern_gate_examples :
    is_malicious_request "/wp-admin/install.php" "" "" =
      (true, "Malicious path pattern detected: /wp-admin/install.php") ∧
    is_malicious_request "/api/chat" "" "" = (false, "") := by
  constructor
  · rfl
  · rfl
